import Mathlib

/-!
Shallow embedding of the derived-signal computation pipeline of
`tradingview_app/app.py` (GeorgeHategan/scannersWebApp).

Numeric values (pandas float64 columns) are modelled as exact rationals `ℚ`;
a column cell that may be missing (NaN from an upstream gap) is `Option ℚ`.
Per-endpoint control flow at the request boundary (the `if not con:` branch
and the `except Exception:` branch) is modelled as a function from the
outcome of the data fetch to the kind of response the handler returns.
-/

namespace ScannersWebApp

/-- pandas `Series.clip(lo, hi)`: values below `lo` are set to `lo`, values
above `hi` are set to `hi`. -/
def clip (lo hi x : ℚ) : ℚ := min (max x lo) hi

/-- pandas `Series.replace(0, 1)` as applied to each denominator series in
`get_delta_data` (lines 743, 747) and `get_signal_data` (lines 834, 840, 846). -/
def replaceZeroOne (x : ℚ) : ℚ := if x = 0 then 1 else x

/-- `TimeBarStart` as it reaches the timestamp loop: either a
`datetime.time`-like value (the `hasattr(time_val, 'hour')` branch) or a
string, e.g. `"09:30"` (the `map(int, str(time_val).split(':')[:2])` branch). -/
inductive TimeVal where
  | tod (hour minute second : Nat)
  | str (s : String)

/-- Python `str.split(':')` over the characters of the string: splits at
every colon, keeping empty components. -/
def splitOnColonAux : List Char → List Char → List (List Char)
  | [], acc => [acc.reverse]
  | c :: rest, acc =>
    if c = ':' then acc.reverse :: splitOnColonAux rest []
    else splitOnColonAux rest (c :: acc)

/-- Digit accumulator for Python `int(...)` on a decimal-digit string. -/
def parseDigitsAux : Nat → List Char → Option Nat
  | n, [] => some n
  | n, c :: rest =>
    if c.isDigit then parseDigitsAux (n * 10 + (c.toNat - 48)) rest
    else none

/-- Python `int(...)` on one component: a non-empty all-digit string parses
to its value; anything else (models the `ValueError` path) is `none`. -/
def parseNatComp : List Char → Option Nat
  | [] => none
  | cs => parseDigitsAux 0 cs

/-- The string branch of the timestamp loop:
`hour, minute = map(int, str(time_val).split(':')[:2])`.  `none` models the
exception raised when the string does not yield two integer components. -/
def parseHM (s : String) : Option (Nat × Nat) :=
  match (splitOnColonAux s.data []).take 2 with
  | [h, m] =>
    match parseNatComp h, parseNatComp m with
    | some hh, some mm => some (hh, mm)
    | _, _ => none
  | _ => none

/-- Both branches of the `hasattr(time_val, 'hour')` test in the timestamp
loop of `get_signal_data` (lines 820-823): extract `(hour, minute)`. -/
def extractHM : TimeVal → Option (Nat × Nat)
  | TimeVal.tod h m _ => some (h, m)
  | TimeVal.str s => parseHM s

/-- Days from the Unix epoch of a proleptic-Gregorian civil date, the date
arithmetic performed by `datetime(year, month, day, hour, minute)`. -/
def daysFromCivil (y m d : Int) : Int :=
  let yy := if m ≤ 2 then y - 1 else y
  let era := (if 0 ≤ yy then yy else yy - 399) / 400
  let yoe := yy - era * 400
  let mp := (m + 9) % 12
  let doy := (153 * mp + 2) / 5 + d - 1
  let doe := yoe * 365 + yoe / 4 - yoe / 100 + doy
  era * 146097 + doe - 719468

/-- `int(datetime(year, month, day, hour, minute).timestamp())`: the naive
datetime is interpreted as local time with UTC offset `tz` seconds and
converted to Unix epoch seconds. -/
def naiveToEpoch (tz y m d hour minute : Int) : Int :=
  daysFromCivil y m d * 86400 + hour * 3600 + minute * 60 - tz

/-- One iteration of the timestamp loop of `get_signal_data` (lines 817-828):
`year = date_val // 10000`, `month = (date_val % 10000) // 100`,
`day = date_val % 100`, combined with the bar's hour and minute.  `none`
models the exception path of a malformed `time_val` string. -/
def barTimestamp (tz : Int) (date : Nat) (tv : TimeVal) : Option Int :=
  (extractHM tv).map (fun hm =>
    naiveToEpoch tz (Int.ofNat (date / 10000)) (Int.ofNat ((date % 10000) / 100))
      (Int.ofNat (date % 100)) (Int.ofNat hm.1) (Int.ofNat hm.2))

/-- One raw minute bar as selected by the `get_signal_data` query
(columns of `taq_1min` used by the derived-signal formulas). -/
structure RawBar where
  Date : Nat
  TimeBarStart : TimeVal
  TradeAtBid : ℚ
  TradeAtBidMid : ℚ
  TradeAtMid : ℚ
  TradeAtMidAsk : ℚ
  TradeAtAsk : ℚ
  UptickVolume : ℚ
  DowntickVolume : ℚ
  RepeatUptickVolume : ℚ
  RepeatDowntickVolume : ℚ
  OpenBidSize : ℚ
  OpenAskSize : ℚ
  CloseBidSize : ℚ
  CloseAskSize : ℚ
  TradeToMidVolWeightRelative : ℚ

/-- `buy_vol = df["TradeAtAsk"] + df["TradeAtMidAsk"]` (line 831). -/
def buy_vol (b : RawBar) : ℚ := b.TradeAtAsk + b.TradeAtMidAsk

/-- `sell_vol = df["TradeAtBid"] + df["TradeAtBidMid"]` (line 832). -/
def sell_vol (b : RawBar) : ℚ := b.TradeAtBid + b.TradeAtBidMid

/-- `total_vol = buy_vol + sell_vol` (line 833). -/
def total_vol (b : RawBar) : ℚ := buy_vol b + sell_vol b

/-- SIGNAL 1 (line 834):
`((buy_vol - sell_vol) / total_vol.replace(0, 1) * 100).clip(-100, 100)`. -/
def delta_score (b : RawBar) : ℚ :=
  clip (-100) 100 ((buy_vol b - sell_vol b) / replaceZeroOne (total_vol b) * 100)

/-- `uptick = df["UptickVolume"] + df["RepeatUptickVolume"]` (line 837). -/
def uptick (b : RawBar) : ℚ := b.UptickVolume + b.RepeatUptickVolume

/-- `downtick = df["DowntickVolume"] + df["RepeatDowntickVolume"]` (line 838). -/
def downtick (b : RawBar) : ℚ := b.DowntickVolume + b.RepeatDowntickVolume

/-- `total_tick = uptick + downtick` (line 839). -/
def total_tick (b : RawBar) : ℚ := uptick b + downtick b

/-- SIGNAL 2 (line 840):
`((uptick - downtick) / total_tick.replace(0, 1) * 100).clip(-100, 100)`. -/
def tick_score (b : RawBar) : ℚ :=
  clip (-100) 100 ((uptick b - downtick b) / replaceZeroOne (total_tick b) * 100)

/-- `bid_size = (df["OpenBidSize"] + df["CloseBidSize"]) / 2` (line 843). -/
def bid_size (b : RawBar) : ℚ := (b.OpenBidSize + b.CloseBidSize) / 2

/-- `ask_size = (df["OpenAskSize"] + df["CloseAskSize"]) / 2` (line 844). -/
def ask_size (b : RawBar) : ℚ := (b.OpenAskSize + b.CloseAskSize) / 2

/-- `total_size = bid_size + ask_size` (line 845). -/
def total_size (b : RawBar) : ℚ := bid_size b + ask_size b

/-- SIGNAL 3 (line 846):
`((bid_size - ask_size) / total_size.replace(0, 1) * 100).clip(-100, 100)`. -/
def book_score (b : RawBar) : ℚ :=
  clip (-100) 100 ((bid_size b - ask_size b) / replaceZeroOne (total_size b) * 100)

/-- SIGNAL 4 (line 850):
`(df["TradeToMidVolWeightRelative"] * 100).clip(-100, 100)`. -/
def mid_score (b : RawBar) : ℚ :=
  clip (-100) 100 (b.TradeToMidVolWeightRelative * 100)

/-- COMBINED SIGNAL (lines 854-859):
`(delta_score*0.40 + tick_score*0.25 + book_score*0.20 + mid_score*0.15).clip(-100, 100)`. -/
def combined_signal (b : RawBar) : ℚ :=
  clip (-100) 100
    (delta_score b * 0.40 + tick_score b * 0.25 + book_score b * 0.20 + mid_score b * 0.15)

/-- Running-sum worker for `Series.cumsum()`. -/
def cumsumAux (acc : ℚ) : List ℚ → List ℚ
  | [] => []
  | x :: xs => (acc + x) :: cumsumAux (acc + x) xs

/-- pandas `Series.cumsum()` (line 862). -/
def cumsum (xs : List ℚ) : List ℚ := cumsumAux 0 xs

/-- pandas `Series.diff().fillna(0)` (line 868): the first element, which
`diff()` leaves NaN, becomes 0; element `i > 0` becomes `xs[i] - xs[i-1]`. -/
def diffFill0 : List ℚ → List ℚ
  | [] => []
  | x :: xs => 0 :: List.zipWith (fun a b => a - b) xs (x :: xs)

/-- The per-row combined signal mapped over the queried bar sequence. -/
def combined_signals (bars : List RawBar) : List ℚ := bars.map combined_signal

/-- `cumulative_signal = combined_signal.cumsum()` (line 862). -/
def cumulative_signal (bars : List RawBar) : List ℚ := cumsum (combined_signals bars)

/-- `momentum = cumulative_signal.diff().fillna(0)` (line 868). -/
def momentum (bars : List RawBar) : List ℚ := diffFill0 (cumulative_signal bars)

/-- Forward-fill worker: `last` is the most recent non-missing value seen. -/
def ffillAux (last : Option ℚ) : List (Option ℚ) → List (Option ℚ)
  | [] => []
  | none :: xs => last :: ffillAux last xs
  | some v :: xs => some v :: ffillAux (some v) xs

/-- pandas `df.ffill()` on one column (line 815): each missing cell takes the
most recent earlier non-missing value of the same column. -/
def ffill (xs : List (Option ℚ)) : List (Option ℚ) := ffillAux none xs

/-- pandas `.fillna(0)` on one column (line 815): remaining missing cells
(leading gaps) become 0. -/
def fillna0 (xs : List (Option ℚ)) : List ℚ := xs.map (fun o => o.getD 0)

/-- `df.ffill().fillna(0)` (line 815) on one column: forward-fill first,
then zero-fill, in that order. -/
def gapFill (xs : List (Option ℚ)) : List ℚ := fillna0 (ffill xs)

/-- The most recent non-missing value in a column segment (spec-level
description of what forward-fill propagates). -/
def lastSome (xs : List (Option ℚ)) : Option ℚ :=
  xs.foldl (fun acc o => match o with | some v => some v | none => acc) none

/-- Modelled from the spec: the guarded-division helper the spec proposes
(`safe_div(numerator, denominator) = denominator == 0 ? 0 : numerator/denominator`).
The repository itself substitutes 1 for a zero denominator instead. -/
def safe_div (n d : ℚ) : ℚ := if d = 0 then 0 else n / d

/-- Modelled from the spec: `delta_score` with the guarded division
(`clip(100 * safe_div(buy - sell, total), -100, 100)`). -/
def delta_score_safe (b : RawBar) : ℚ :=
  clip (-100) 100 (100 * safe_div (buy_vol b - sell_vol b) (total_vol b))

/-- Modelled from the spec: `tick_score` with the guarded division. -/
def tick_score_safe (b : RawBar) : ℚ :=
  clip (-100) 100 (100 * safe_div (uptick b - downtick b) (total_tick b))

/-- Modelled from the spec: `book_score` with the guarded division. -/
def book_score_safe (b : RawBar) : ℚ :=
  clip (-100) 100 (100 * safe_div (bid_size b - ask_size b) (total_size b))

/-- Outcome of the data fetch seen by a route handler: the connection helper
returned `None`; some step of the handler body raised; or the query returned
`n` rows. -/
inductive FetchResult where
  | noConnection
  | exceptionRaised
  | rows (n : Nat)

/-- The kind of JSON payload a handler returns: a fixed fallback sample
dataset, the `{"s": "no_data"}` marker, a real `{"s": "ok", ...}` payload,
or an error payload carrying a message. -/
inductive RespKind where
  | sample
  | noData
  | ok
  | error
deriving DecidableEq

/-- `get_history` (lines 141-184): no connection → sample data (line 148);
exception → sample data (line 184); empty result → no_data; else ok. -/
def get_history : FetchResult → RespKind
  | FetchResult.noConnection => RespKind.sample
  | FetchResult.exceptionRaised => RespKind.sample
  | FetchResult.rows 0 => RespKind.noData
  | FetchResult.rows (_ + 1) => RespKind.ok

/-- `get_spread_data` (lines 190-248): no connection → fixed sample spread
dict (line 197); exception → the same sample dict (line 248). -/
def get_spread_data : FetchResult → RespKind
  | FetchResult.noConnection => RespKind.sample
  | FetchResult.exceptionRaised => RespKind.sample
  | FetchResult.rows 0 => RespKind.noData
  | FetchResult.rows (_ + 1) => RespKind.ok

/-- `get_indicators` (lines 254-315): sample on no connection and on
exception. -/
def get_indicators : FetchResult → RespKind
  | FetchResult.noConnection => RespKind.sample
  | FetchResult.exceptionRaised => RespKind.sample
  | FetchResult.rows 0 => RespKind.noData
  | FetchResult.rows (_ + 1) => RespKind.ok

/-- `get_volume_data` (lines 321-383): sample on no connection and on
exception. -/
def get_volume_data : FetchResult → RespKind
  | FetchResult.noConnection => RespKind.sample
  | FetchResult.exceptionRaised => RespKind.sample
  | FetchResult.rows 0 => RespKind.noData
  | FetchResult.rows (_ + 1) => RespKind.ok

/-- `get_liquidity_data` (lines 386-448): sample on no connection and on
exception. -/
def get_liquidity_data : FetchResult → RespKind
  | FetchResult.noConnection => RespKind.sample
  | FetchResult.exceptionRaised => RespKind.sample
  | FetchResult.rows 0 => RespKind.noData
  | FetchResult.rows (_ + 1) => RespKind.ok

/-- `get_flow_data` (lines 451-515): sample on no connection and on
exception. -/
def get_flow_data : FetchResult → RespKind
  | FetchResult.noConnection => RespKind.sample
  | FetchResult.exceptionRaised => RespKind.sample
  | FetchResult.rows 0 => RespKind.noData
  | FetchResult.rows (_ + 1) => RespKind.ok

/-- `search_symbol` (lines 518-541): fixed ticker list on no connection and
on exception; a query result of any size is returned as-is. -/
def search_symbol : FetchResult → RespKind
  | FetchResult.noConnection => RespKind.sample
  | FetchResult.exceptionRaised => RespKind.sample
  | FetchResult.rows _ => RespKind.ok

/-- `get_available_dates` (lines 544-562): fixed `{"dates": [20200128]}` on
no connection (line 550) but `{"dates": [], "error": ...}` on exception
(line 562). -/
def get_available_dates : FetchResult → RespKind
  | FetchResult.noConnection => RespKind.sample
  | FetchResult.exceptionRaised => RespKind.error
  | FetchResult.rows _ => RespKind.ok

/-- `get_accumulation_data` (lines 565-668): `{"s": "no_data"}` on no
connection (line 571) but `{"s": "error", "message": ...}` on exception
(line 668). -/
def get_accumulation_data : FetchResult → RespKind
  | FetchResult.noConnection => RespKind.noData
  | FetchResult.exceptionRaised => RespKind.error
  | FetchResult.rows 0 => RespKind.noData
  | FetchResult.rows (_ + 1) => RespKind.ok

/-- `get_delta_data` (lines 671-770): `{"s": "no_data"}` on no connection
(line 677) but `{"s": "error", "message": ...}` on exception (line 770). -/
def get_delta_data : FetchResult → RespKind
  | FetchResult.noConnection => RespKind.noData
  | FetchResult.exceptionRaised => RespKind.error
  | FetchResult.rows 0 => RespKind.noData
  | FetchResult.rows (_ + 1) => RespKind.ok

/-- `get_signal_data` (lines 773-894): `{"s": "no_data"}` on no connection
(line 779) but `{"s": "error", "message": ...}` on exception (line 894). -/
def get_signal_data : FetchResult → RespKind
  | FetchResult.noConnection => RespKind.noData
  | FetchResult.exceptionRaised => RespKind.error
  | FetchResult.rows 0 => RespKind.noData
  | FetchResult.rows (_ + 1) => RespKind.ok

/-- The data endpoints of the service, in source order. -/
def dataEndpoints : List (FetchResult → RespKind) :=
  [get_history, get_spread_data, get_indicators, get_volume_data,
   get_liquidity_data, get_flow_data, search_symbol, get_available_dates,
   get_accumulation_data, get_delta_data, get_signal_data]

/-- A concrete all-zero bar (every trade/tick/size counter zero). -/
def zeroBar : RawBar :=
  ⟨20200128, TimeVal.tod 9 30 0, 0, 0, 0, 0, 0, 0, 0, 0, 0, 0, 0, 0, 0, 0⟩

/-- A concrete bar with mixed nonzero activity. -/
def sampleBar : RawBar :=
  ⟨20200128, TimeVal.tod 9 31 0, 30, 10, 5, 20, 40, 70, 25, 15, 5, 180, 220, 200, 260, 1/2⟩

/-- A second concrete bar. -/
def sampleBar2 : RawBar :=
  ⟨20200128, TimeVal.tod 9 32 0, 55, 20, 0, 10, 25, 30, 65, 10, 20, 240, 160, 210, 150, -1/4⟩

/-- A three-bar concrete sequence. -/
def sampleBars : List RawBar := [sampleBar, zeroBar, sampleBar2]

/-- A concrete column with a leading gap and interior gaps. -/
def sampleColumn : List (Option ℚ) :=
  [none, some 5, none, none, some 2, none]

/-- A list with its first element replaced by 0. -/
def zeroHead : List ℚ → List ℚ
  | [] => []
  | _ :: t => 0 :: t

/-! ## Helper lemmas -/

theorem clip_zero : clip (-100) 100 (0 : ℚ) = 0 := by
  unfold clip
  rw [max_eq_left (by norm_num : (-100 : ℚ) ≤ 0),
    min_eq_left (by norm_num : (0 : ℚ) ≤ 100)]

theorem le_clip {lo hi : ℚ} (x : ℚ) (h : lo ≤ hi) : lo ≤ clip lo hi x :=
  le_min (le_max_right x lo) h

theorem clip_le (lo hi x : ℚ) : clip lo hi x ≤ hi :=
  min_le_right (max x lo) hi

theorem replaceZeroOne_ne_zero (x : ℚ) : replaceZeroOne x ≠ 0 := by
  unfold replaceZeroOne
  split
  · norm_num
  · assumption

/-! ## Claim theorems -/

/-- C1: for a row whose trade/tick/quote-size fields are non-negative, a
zero ratio denominator forces the corresponding score to be exactly 0:
`total_vol = 0` gives `delta_score = 0`, `total_tick = 0` gives
`tick_score = 0`, `total_size = 0` gives `book_score = 0`; and since the
zero denominator is replaced by 1 before dividing, the effective denominator
is never 0, so no division-by-zero fault can arise. -/
theorem scores_zero_on_zero_denominator (b : RawBar)
    (haa : 0 ≤ b.TradeAtAsk) (hma : 0 ≤ b.TradeAtMidAsk)
    (hbb : 0 ≤ b.TradeAtBid) (hbm : 0 ≤ b.TradeAtBidMid)
    (hu : 0 ≤ b.UptickVolume) (hd : 0 ≤ b.DowntickVolume)
    (hru : 0 ≤ b.RepeatUptickVolume) (hrd : 0 ≤ b.RepeatDowntickVolume)
    (hob : 0 ≤ b.OpenBidSize) (hoa : 0 ≤ b.OpenAskSize)
    (hcb : 0 ≤ b.CloseBidSize) (hca : 0 ≤ b.CloseAskSize) :
    (total_vol b = 0 → delta_score b = 0) ∧
    (total_tick b = 0 → tick_score b = 0) ∧
    (total_size b = 0 → book_score b = 0) ∧
    replaceZeroOne (total_vol b) ≠ 0 ∧
    replaceZeroOne (total_tick b) ≠ 0 ∧
    replaceZeroOne (total_size b) ≠ 0 := by
  refine ⟨?_, ?_, ?_, replaceZeroOne_ne_zero _, replaceZeroOne_ne_zero _,
    replaceZeroOne_ne_zero _⟩
  · intro h
    have hnum : buy_vol b - sell_vol b = 0 := by
      unfold total_vol buy_vol sell_vol at *
      linarith
    rw [delta_score, hnum, zero_div, zero_mul, clip_zero]
  · intro h
    have hnum : uptick b - downtick b = 0 := by
      unfold total_tick uptick downtick at *
      linarith
    rw [tick_score, hnum, zero_div, zero_mul, clip_zero]
  · intro h
    have hnum : bid_size b - ask_size b = 0 := by
      unfold total_size bid_size ask_size at *
      linarith
    rw [book_score, hnum, zero_div, zero_mul, clip_zero]

/-- Witness for C1 at the concrete all-zero bar. -/
theorem scores_zero_on_zero_denominator_witness :
    delta_score zeroBar = 0 ∧ tick_score zeroBar = 0 ∧ book_score zeroBar = 0 := by
  have h := scores_zero_on_zero_denominator zeroBar
    (by norm_num [zeroBar]) (by norm_num [zeroBar]) (by norm_num [zeroBar])
    (by norm_num [zeroBar]) (by norm_num [zeroBar]) (by norm_num [zeroBar])
    (by norm_num [zeroBar]) (by norm_num [zeroBar]) (by norm_num [zeroBar])
    (by norm_num [zeroBar]) (by norm_num [zeroBar]) (by norm_num [zeroBar])
  exact ⟨h.1 (by norm_num [total_vol, buy_vol, sell_vol, zeroBar]),
    h.2.1 (by norm_num [total_tick, uptick, downtick, zeroBar]),
    h.2.2.1 (by norm_num [total_size, bid_size, ask_size, zeroBar])⟩

/-- C2: every element of `combined_signal` equals the clipped weighted sum
`clip(0.40*delta_score + 0.25*tick_score + 0.20*book_score + 0.15*mid_score,
-100, 100)` with exactly those constant weights; the weights sum to 1; and
every combined-signal value lies in `[-100, 100]`. -/
theorem combined_signal_weights_and_bounds :
    (∀ b : RawBar, combined_signal b =
      clip (-100) 100 (0.40 * delta_score b + 0.25 * tick_score b +
        0.20 * book_score b + 0.15 * mid_score b)) ∧
    ((0.40 : ℚ) + 0.25 + 0.20 + 0.15 = 1) ∧
    (∀ b : RawBar, -100 ≤ combined_signal b ∧ combined_signal b ≤ 100) ∧
    (∀ bars : List RawBar, combined_signals bars = bars.map combined_signal) := by
  refine ⟨?_, by norm_num, ?_, fun bars => rfl⟩
  · intro b
    unfold combined_signal
    congr 1
    ring
  · intro b
    exact ⟨le_clip _ (by norm_num), clip_le _ _ _⟩

/-- C5: under non-negativity of the contributing raw fields, the
replace-zero-denominator-with-1 computation of each ratio score coincides
with the spec's guarded-division version built on
`safe_div(n, d) = (d == 0 ? 0 : n/d)`: whenever the denominator is 0 the
numerator is also 0, so both definitions give 0. -/
theorem scores_eq_safe_div_scores (b : RawBar)
    (haa : 0 ≤ b.TradeAtAsk) (hma : 0 ≤ b.TradeAtMidAsk)
    (hbb : 0 ≤ b.TradeAtBid) (hbm : 0 ≤ b.TradeAtBidMid)
    (hu : 0 ≤ b.UptickVolume) (hd : 0 ≤ b.DowntickVolume)
    (hru : 0 ≤ b.RepeatUptickVolume) (hrd : 0 ≤ b.RepeatDowntickVolume)
    (hob : 0 ≤ b.OpenBidSize) (hoa : 0 ≤ b.OpenAskSize)
    (hcb : 0 ≤ b.CloseBidSize) (hca : 0 ≤ b.CloseAskSize) :
    delta_score b = delta_score_safe b ∧
    tick_score b = tick_score_safe b ∧
    book_score b = book_score_safe b := by
  refine ⟨?_, ?_, ?_⟩
  · by_cases h : total_vol b = 0
    · have hnum : buy_vol b - sell_vol b = 0 := by
        unfold total_vol buy_vol sell_vol at *
        linarith
      rw [delta_score, delta_score_safe, hnum, h]
      simp [safe_div, zero_div, zero_mul, mul_zero]
    · rw [delta_score, delta_score_safe]
      simp only [replaceZeroOne, safe_div, h, if_false]
      congr 1
      ring
  · by_cases h : total_tick b = 0
    · have hnum : uptick b - downtick b = 0 := by
        unfold total_tick uptick downtick at *
        linarith
      rw [tick_score, tick_score_safe, hnum, h]
      simp [safe_div, zero_div, zero_mul, mul_zero]
    · rw [tick_score, tick_score_safe]
      simp only [replaceZeroOne, safe_div, h, if_false]
      congr 1
      ring
  · by_cases h : total_size b = 0
    · have hnum : bid_size b - ask_size b = 0 := by
        unfold total_size bid_size ask_size at *
        linarith
      rw [book_score, book_score_safe, hnum, h]
      simp [safe_div, zero_div, zero_mul, mul_zero]
    · rw [book_score, book_score_safe]
      simp only [replaceZeroOne, safe_div, h, if_false]
      congr 1
      ring

/-- Witness for C5 at a concrete bar with mixed nonzero activity. -/
theorem scores_eq_safe_div_scores_witness :
    delta_score sampleBar = delta_score_safe sampleBar ∧
    tick_score sampleBar = tick_score_safe sampleBar ∧
    book_score sampleBar = book_score_safe sampleBar :=
  scores_eq_safe_div_scores sampleBar
    (by norm_num [sampleBar]) (by norm_num [sampleBar]) (by norm_num [sampleBar])
    (by norm_num [sampleBar]) (by norm_num [sampleBar]) (by norm_num [sampleBar])
    (by norm_num [sampleBar]) (by norm_num [sampleBar]) (by norm_num [sampleBar])
    (by norm_num [sampleBar]) (by norm_num [sampleBar]) (by norm_num [sampleBar])

theorem cumsumAux_length (xs : List ℚ) : ∀ acc : ℚ, (cumsumAux acc xs).length = xs.length := by
  induction xs with
  | nil => intro acc; rfl
  | cons x t ih =>
    intro acc
    simp only [cumsumAux, List.length_cons, ih]

theorem cumsumAux_getD (xs : List ℚ) : ∀ (acc : ℚ) (i : Nat), i < xs.length →
    (cumsumAux acc xs).getD i 0 = (xs.take (i + 1)).foldl (fun a b => a + b) acc := by
  induction xs with
  | nil => intro acc i hi; simp at hi
  | cons x t ih =>
    intro acc i hi
    cases i with
    | zero => simp [cumsumAux]
    | succ j =>
      have hj : j < t.length := by simpa using hi
      simp only [cumsumAux, List.getD_cons_succ, List.take_succ_cons, List.foldl_cons]
      exact ih (acc + x) j hj

theorem cumulative_signal_len (bars : List RawBar) :
    (cumulative_signal bars).length = bars.length := by
  unfold cumulative_signal cumsum combined_signals
  rw [cumsumAux_length, List.length_map]

/-- C3: `cumulative_signal[i]` is the left-to-right running sum of
`combined_signal[0..i]` over the whole queried sequence; the sum depends only
on the per-row combined values, so it is reset at the start of the queried
sequence and never at a trading-day boundary (bars on later dates keep
accumulating). -/
theorem cumulative_signal_is_running_sum :
    (∀ bars : List RawBar, (cumulative_signal bars).length = bars.length) ∧
    (∀ bars : List RawBar, ∀ i, i < bars.length →
      (cumulative_signal bars).getD i 0 =
        ((combined_signals bars).take (i + 1)).foldl (fun a b => a + b) 0) ∧
    (∀ bars1 bars2 : List RawBar, combined_signals bars1 = combined_signals bars2 →
      cumulative_signal bars1 = cumulative_signal bars2) := by
  refine ⟨cumulative_signal_len, ?_, ?_⟩
  · intro bars i hi
    unfold cumulative_signal cumsum
    exact cumsumAux_getD _ 0 i (by simpa [combined_signals] using hi)
  · intro bars1 bars2 h
    unfold cumulative_signal
    rw [h]

/-- Witness for C3 at the concrete three-bar sequence, index 2. -/
theorem cumulative_signal_is_running_sum_witness :
    (cumulative_signal sampleBars).getD 2 0 =
      ((combined_signals sampleBars).take 3).foldl (fun a b => a + b) 0 ∧
    cumulative_signal sampleBars = cumulative_signal sampleBars :=
  ⟨cumulative_signal_is_running_sum.2.1 sampleBars 2 (by simp [sampleBars]),
    cumulative_signal_is_running_sum.2.2 sampleBars sampleBars rfl⟩

theorem diffFill0_length (xs : List ℚ) : (diffFill0 xs).length = xs.length := by
  cases xs with
  | nil => rfl
  | cons x t => simp [diffFill0]

theorem diffFill0_getD_zero (xs : List ℚ) (h : xs ≠ []) :
    (diffFill0 xs).getD 0 0 = 0 := by
  cases xs with
  | nil => exact absurd rfl h
  | cons x t => rfl

theorem diffFill0_getD_succ (xs : List ℚ) (i : Nat) (hi : i + 1 < xs.length) :
    (diffFill0 xs).getD (i + 1) 0 = xs.getD (i + 1) 0 - xs.getD i 0 := by
  cases xs with
  | nil => simp at hi
  | cons x t =>
    have ht : i < t.length := by simpa using hi
    have hmin : i < (List.zipWith (fun a b => a - b) t (x :: t)).length := by
      simp [List.length_zipWith]
      omega
    simp only [diffFill0, List.getD_cons_succ]
    rw [List.getD_eq_getElem?_getD, List.getElem?_eq_getElem hmin,
      List.getElem_zipWith, Option.getD_some]
    cases i with
    | zero =>
      simp [List.getD_eq_getElem?_getD, List.getElem?_eq_getElem ht]
    | succ j =>
      have hj : j < t.length := by omega
      simp [List.getD_eq_getElem?_getD, List.getElem?_eq_getElem ht,
        List.getElem?_eq_getElem hj]

/-- C4: `momentum[0] = 0` for a non-empty input, and for `i > 0`,
`momentum[i] = cumulative_signal[i] - cumulative_signal[i-1]` exactly
(pandas `diff().fillna(0)`). -/
theorem momentum_diff_of_cumulative :
    (∀ bars : List RawBar, bars ≠ [] → (momentum bars).getD 0 0 = 0) ∧
    (∀ bars : List RawBar, ∀ i, 0 < i → i < bars.length →
      (momentum bars).getD i 0 =
        (cumulative_signal bars).getD i 0 - (cumulative_signal bars).getD (i - 1) 0) := by
  constructor
  · intro bars h
    apply diffFill0_getD_zero
    intro hcs
    apply h
    have : (cumulative_signal bars).length = bars.length :=
      cumulative_signal_len bars
    rw [hcs] at this
    exact List.length_eq_zero.mp this.symm
  · intro bars i hpos hlen
    obtain ⟨j, rfl⟩ : ∃ j, i = j + 1 := ⟨i - 1, by omega⟩
    have hj : j + 1 < (cumulative_signal bars).length := by
      rw [cumulative_signal_len]; exact hlen
    simpa using diffFill0_getD_succ (cumulative_signal bars) j hj

/-- Witness for C4 at the concrete three-bar sequence. -/
theorem momentum_diff_of_cumulative_witness :
    (momentum sampleBars).getD 0 0 = 0 ∧
    (momentum sampleBars).getD 2 0 =
      (cumulative_signal sampleBars).getD 2 0 -
        (cumulative_signal sampleBars).getD 1 0 := by
  constructor
  · exact momentum_diff_of_cumulative.1 sampleBars (by simp [sampleBars])
  · have h := momentum_diff_of_cumulative.2 sampleBars 2 (by norm_num) (by simp [sampleBars])
    simpa using h

theorem zip_sub_cumsumAux (t : List ℚ) : ∀ acc : ℚ,
    List.zipWith (fun a b => a - b) (cumsumAux acc t) (acc :: cumsumAux acc t) = t := by
  induction t with
  | nil => intro acc; rfl
  | cons y t2 ih =>
    intro acc
    simp only [cumsumAux, List.zipWith_cons_cons, add_sub_cancel_left, ih]

/-- C10: the momentum series telescopes back to the combined signal: it is
exactly the combined-signal series with its first element replaced by 0
(so `momentum[i] = combined_signal[i]` for every `i > 0`, and `momentum[0]`
is forced to 0 even when `combined_signal[0]` is nonzero). -/
theorem momentum_eq_zeroHead_combined :
    ∀ bars : List RawBar, momentum bars = zeroHead (combined_signals bars) := by
  intro bars
  unfold momentum cumulative_signal
  cases hcs : combined_signals bars with
  | nil => rfl
  | cons c t =>
    simp only [cumsum, cumsumAux, diffFill0, zeroHead, zip_sub_cumsumAux, zero_add]

theorem ffillAux_length (xs : List (Option ℚ)) :
    ∀ last : Option ℚ, (ffillAux last xs).length = xs.length := by
  induction xs with
  | nil => intro last; rfl
  | cons x t ih =>
    intro last
    cases x with
    | none => simp only [ffillAux, List.length_cons, ih]
    | some v => simp only [ffillAux, List.length_cons, ih]

theorem gapFill_length (xs : List (Option ℚ)) : (gapFill xs).length = xs.length := by
  unfold gapFill fillna0 ffill
  rw [List.length_map, ffillAux_length]

theorem ffStep_fold_getD (xs : List (Option ℚ)) :
    ∀ (last : Option ℚ) (i : Nat), i < xs.length →
    (fillna0 (ffillAux last xs)).getD i 0 =
      ((xs.take (i + 1)).foldl
        (fun acc o => match o with | some v => some v | none => acc) last).getD 0 := by
  induction xs with
  | nil => intro last i hi; simp at hi
  | cons x t ih =>
    intro last i hi
    cases x with
    | none =>
      cases i with
      | zero => simp [ffillAux, fillna0]
      | succ j =>
        have hj : j < t.length := by simpa using hi
        simp only [ffillAux, fillna0, List.map_cons, List.getD_cons_succ,
          List.take_succ_cons, List.foldl_cons]
        exact ih last j hj
    | some v =>
      cases i with
      | zero => simp [ffillAux, fillna0]
      | succ j =>
        have hj : j < t.length := by simpa using hi
        simp only [ffillAux, fillna0, List.map_cons, List.getD_cons_succ,
          List.take_succ_cons, List.foldl_cons]
        exact ih (some v) j hj

/-- C6: the gap handling `df.ffill().fillna(0)` forward-fills each missing
cell with the most recent earlier non-missing value of the same column, then
zero-fills the remaining (leading-gap) cells, in that order; it never drops
rows, so the output has exactly the length of the input. -/
theorem gapFill_forward_then_zero :
    (∀ xs : List (Option ℚ), (gapFill xs).length = xs.length) ∧
    (∀ xs : List (Option ℚ), ∀ i, i < xs.length →
      (gapFill xs).getD i 0 = (lastSome (xs.take (i + 1))).getD 0) ∧
    (∀ xs : List (Option ℚ), gapFill xs = fillna0 (ffill xs)) := by
  refine ⟨gapFill_length, ?_, fun xs => rfl⟩
  intro xs i hi
  unfold gapFill ffill lastSome
  exact ffStep_fold_getD xs none i hi

/-- Witness for C6 at the concrete gapped column, index 3 (an interior gap
whose most recent earlier value is 5). -/
theorem gapFill_forward_then_zero_witness :
    (gapFill sampleColumn).getD 3 0 = (lastSome (sampleColumn.take 4)).getD 0 ∧
    (gapFill sampleColumn).length = sampleColumn.length :=
  ⟨gapFill_forward_then_zero.2.1 sampleColumn 3 (by simp [sampleColumn]),
    gapFill_forward_then_zero.1 sampleColumn⟩

theorem ffillAux_map_some (ys : List ℚ) :
    ∀ last : Option ℚ, ffillAux last (ys.map some) = ys.map some := by
  induction ys with
  | nil => intro last; rfl
  | cons y t ih =>
    intro last
    simp only [List.map_cons, ffillAux, ih]

theorem fillna0_map_some (ys : List ℚ) : fillna0 (ys.map some) = ys := by
  induction ys with
  | nil => rfl
  | cons y t ih =>
    simp only [List.map_cons, fillna0, Option.getD_some, List.cons.injEq]
    exact ⟨trivial, ih⟩

/-- C9: the gap-fill routine is idempotent: re-running
`ffill().fillna(0)` on an already gap-filled column (which no longer has
any missing cell) returns it unchanged. -/
theorem gapFill_idempotent :
    ∀ xs : List (Option ℚ), gapFill ((gapFill xs).map some) = gapFill xs := by
  intro xs
  conv_lhs => rw [gapFill, ffill, ffillAux_map_some, fillna0_map_some]

/-- C7: each emitted timestamp decomposes the 8-digit date as
`year = date / 10000`, `month = (date % 10000) / 100`, `day = date % 100`,
combines it with the bar's hour and minute, and converts the naive local
datetime to Unix epoch seconds; a `time_bar_start` given as a time-of-day
value and one given as an `"HH:MM"` string denoting the same hour and minute
produce identical timestamps. -/
theorem barTimestamp_decomposition_and_string_equiv
    (tz : Int) (date : Nat) (h mi sec : Nat) (s : String)
    (hs : parseHM s = some (h, mi)) :
    barTimestamp tz date (TimeVal.tod h mi sec) =
      some (naiveToEpoch tz (Int.ofNat (date / 10000))
        (Int.ofNat ((date % 10000) / 100)) (Int.ofNat (date % 100))
        (Int.ofNat h) (Int.ofNat mi)) ∧
    barTimestamp tz date (TimeVal.str s) =
      barTimestamp tz date (TimeVal.tod h mi sec) := by
  constructor
  · rfl
  · simp [barTimestamp, extractHM, hs]

/-- Witness for C7: the Eastern-time (UTC-5) bar `2020-01-28 09:30`,
given as a time value and as the string `"09:30"`. -/
theorem barTimestamp_decomposition_and_string_equiv_witness :
    barTimestamp (-18000) 20200128 (TimeVal.tod 9 30 0) =
      some (naiveToEpoch (-18000) (Int.ofNat (20200128 / 10000))
        (Int.ofNat ((20200128 % 10000) / 100)) (Int.ofNat (20200128 % 100))
        (Int.ofNat 9) (Int.ofNat 30)) ∧
    barTimestamp (-18000) 20200128 (TimeVal.str ("09:30")) =
      barTimestamp (-18000) 20200128 (TimeVal.tod 9 30 0) :=
  barTimestamp_decomposition_and_string_equiv (-18000) 20200128 9 30 0
    ("09:30") (by decide)

/-- C8 counterexample: it is not the case that every data endpoint falls
back to the fixed sample dataset when the database connection is
unavailable, behaving identically to its transform-error case:
`get_signal_data` returns the no-data marker on a missing connection
(line 779), not sample data, and its exception branch returns an error
payload (line 894). -/
theorem source_unavailable_claim_false :
    ¬ (∀ ep ∈ dataEndpoints, ep FetchResult.noConnection = RespKind.sample ∧
        ep FetchResult.noConnection = ep FetchResult.exceptionRaised) := by
  intro hall
  have hmem : get_signal_data ∈ dataEndpoints := by simp [dataEndpoints]
  exact absurd (hall get_signal_data hmem).1 (by decide)

/-- C8 amended: on a missing database connection, `get_history`,
`get_spread_data`, `get_indicators`, `get_volume_data`, `get_liquidity_data`,
`get_flow_data` and `search_symbol` fall back to fixed sample data,
identically to their transform-error case; `get_available_dates` returns a
fixed sample on a missing connection but an error payload on a transform
error; and `get_accumulation_data`, `get_delta_data` and `get_signal_data`
return the no-data marker on a missing connection while their
transform-error case returns an error payload. -/
theorem source_unavailable_behavior :
    (get_history FetchResult.noConnection = RespKind.sample ∧
      get_history FetchResult.exceptionRaised = RespKind.sample) ∧
    (get_spread_data FetchResult.noConnection = RespKind.sample ∧
      get_spread_data FetchResult.exceptionRaised = RespKind.sample) ∧
    (get_indicators FetchResult.noConnection = RespKind.sample ∧
      get_indicators FetchResult.exceptionRaised = RespKind.sample) ∧
    (get_volume_data FetchResult.noConnection = RespKind.sample ∧
      get_volume_data FetchResult.exceptionRaised = RespKind.sample) ∧
    (get_liquidity_data FetchResult.noConnection = RespKind.sample ∧
      get_liquidity_data FetchResult.exceptionRaised = RespKind.sample) ∧
    (get_flow_data FetchResult.noConnection = RespKind.sample ∧
      get_flow_data FetchResult.exceptionRaised = RespKind.sample) ∧
    (search_symbol FetchResult.noConnection = RespKind.sample ∧
      search_symbol FetchResult.exceptionRaised = RespKind.sample) ∧
    (get_available_dates FetchResult.noConnection = RespKind.sample ∧
      get_available_dates FetchResult.exceptionRaised = RespKind.error) ∧
    (get_accumulation_data FetchResult.noConnection = RespKind.noData ∧
      get_accumulation_data FetchResult.exceptionRaised = RespKind.error) ∧
    (get_delta_data FetchResult.noConnection = RespKind.noData ∧
      get_delta_data FetchResult.exceptionRaised = RespKind.error) ∧
    (get_signal_data FetchResult.noConnection = RespKind.noData ∧
      get_signal_data FetchResult.exceptionRaised = RespKind.error) := by
  decide

end ScannersWebApp
